import Mathlib

/-!
Shallow embedding of the neuryx streaming transcription core
(`backend/speech/transcriber_stream.py` and `backend/core/inference_config.py`),
together with proofs of the behavioural properties claimed for it.

Conventions used by the embedding:

* Python floats (wall-clock times, segment timestamps, temperatures) are
  modelled as rationals (`ℚ`); none of the properties below depend on
  floating-point rounding.
* The numpy sample buffer (shape `(n, 1)` `float32`) is modelled as `List ℚ`;
  the `chunk[:, None]` reshape in `add_chunk` is a no-op in the list model.
* Every read of the wall clock (`time.time()`) becomes an explicit `now : ℚ`
  argument of the operation that performs it.
* The faster-whisper engine call `self.model.transcribe(...)` is an explicit
  function argument `engine : EngineArgs → Except EngineError (List Seg)`;
  a Python exception raised by the engine is the `.error` case.  The measured
  inference wall time is the explicit argument `inference_time`.
* The optional `file_writer` side channel only performs file output and holds
  no transcript state, so it does not appear in the state.
-/

namespace Neuryx

attribute [local semireducible] Rat.add Rat.sub Rat.mul Rat.inv

/-- Python `str.strip()`: remove leading and trailing whitespace. -/
def pyStrip (s : String) : String :=
  ⟨((s.data.dropWhile Char.isWhitespace).reverse.dropWhile Char.isWhitespace).reverse⟩

/-- Python `" ".join(parts)`. -/
def joinSpace : List String → String
  | [] => ""
  | [p] => p
  | p :: ps => p ++ " " ++ joinSpace ps

/-- Python `round(x, 2)` (round half to even, two decimal places), on the
idealised rational value of the float. -/
def pyRound2 (x : ℚ) : ℚ :=
  let y := x * 100
  let f := Int.floor y
  let r := y - (f : ℚ)
  let n : ℤ :=
    if r < 1/2 then f
    else if 1/2 < r then f + 1
    else if f % 2 = 0 then f else f + 1
  (n : ℚ) / 100

/-- Model of the `InferenceProfile` dataclass of `backend/core/inference_config.py`. -/
structure InferenceProfile where
  beam_size : Nat
  temperature : ℚ
  best_of : Nat
  condition_on_previous_text : Bool
  vad_filter : Bool
  initial_prompt : Option String
  deriving DecidableEq, Repr

/-- Profile `STREAMING_PROFILE` (fast, English). -/
def STREAMING_PROFILE : InferenceProfile :=
  { beam_size := 2
    temperature := 0
    best_of := 1
    condition_on_previous_text := false
    vad_filter := true
    initial_prompt := none }

/-- Profile `ACCURACY_PROFILE` (slower, context-aware). -/
def ACCURACY_PROFILE : InferenceProfile :=
  { beam_size := 5
    temperature := 0
    best_of := 3
    condition_on_previous_text := true
    vad_filter := true
    initial_prompt := none }

/-- Profile `URDU_PROFILE` (native script). -/
def URDU_PROFILE : InferenceProfile :=
  { beam_size := 5
    temperature := 0
    best_of := 3
    condition_on_previous_text := true
    vad_filter := true
    initial_prompt := some "The following speech is in Urdu. Transcribe carefully." }

/-- Profile `ROMAN_URDU_PROFILE` (Urdu in English letters). -/
def ROMAN_URDU_PROFILE : InferenceProfile :=
  { beam_size := 5
    temperature := 0
    best_of := 3
    condition_on_previous_text := true
    vad_filter := true
    initial_prompt := some "The following speech is in Urdu. Write the output in Roman Urdu using English letters." }

/-- Model of `get_profile_for_language` from `backend/core/inference_config.py`. -/
def get_profile_for_language (language : String) : InferenceProfile :=
  if language = "ur" then URDU_PROFILE
  else if language = "roman-ur" then ROMAN_URDU_PROFILE
  else if language = "en" then STREAMING_PROFILE
  else ACCURACY_PROFILE

/-- One segment as returned by the ASR engine (`seg.text`, `seg.start`,
`seg.end`; `end` is a Lean keyword, so the field is called `stop`). -/
structure Seg where
  text : String
  start : ℚ
  stop : ℚ
  deriving DecidableEq, Repr

/-- One entry of `self.committed_segments` (the dict
`{"text": ..., "start": ..., "end": ..., "finalized": True}`;
`end` is stored in the field `stop`). -/
structure CommittedSegment where
  text : String
  start : ℚ
  stop : ℚ
  finalized : Bool
  deriving DecidableEq, Repr

/-- A Python exception raised by the engine call, reduced to its message. -/
abbrev EngineError := String

/-- The keyword arguments of the `self.model.transcribe(...)` call
(lines 116-127 of `transcriber_stream.py`). -/
structure EngineArgs where
  audio : List ℚ
  language : Option String
  initial_prompt : Option String
  condition_on_previous_text : Bool
  beam_size : Nat
  best_of : Nat
  vad_filter : Bool
  temperature : ℚ
  no_speech_threshold : ℚ
  deriving DecidableEq, Repr

/-- The dict `{"committed": ..., "partial": ...}` returned by `transcribe`
(the `"partial"` entry is the field `partial_text`). -/
structure TranscribeResult where
  committed : List CommittedSegment
  partial_text : String
  deriving DecidableEq, Repr

/-- The dict returned by `get_metrics_summary`. -/
structure MetricsSummary where
  total_chunks : Nat
  avg_inference_time : ℚ
  total_commits : Nat
  deriving DecidableEq, Repr

/-- The mutable attributes of a `StreamingTranscriber` instance.
`current_partial` is the field `partial_text`, and the throttle constant
`TRANSCRIBE_INTERVAL` keeps its source name. -/
structure TranscriberState where
  sample_rate : Nat
  window_samples : Nat
  buffer : List ℚ
  language_code : String
  profile : InferenceProfile
  initial_prompt : Option String
  committed_segments : List CommittedSegment
  partial_text : String
  last_committed_end_time : ℚ
  last_audio_time : ℚ
  TRANSCRIBE_INTERVAL : ℚ
  last_transcribe_time : ℚ
  chunk_count : Nat
  total_inference_time : ℚ
  total_commits : Nat
  deriving DecidableEq, Repr

/-- Model of `StreamingTranscriber.__init__`.  The `model_size` argument only selects
the engine (which is external here) and is dropped.  `int(...)` truncation
equals `Int.floor` on the nonnegative products that occur. -/
def init (sample_rate : Nat) (window_seconds : ℚ) (language : String)
    (initial_prompt : Option String) (now : ℚ) : TranscriberState :=
  let lang_key := if language = "" then "roman-ur" else language
  let profile := get_profile_for_language lang_key
  let ip : Option String :=
    match initial_prompt with
    | some p => if p = "" then profile.initial_prompt else some p
    | none => profile.initial_prompt
  { sample_rate := sample_rate
    window_samples := (Int.floor ((sample_rate : ℚ) * window_seconds)).toNat
    buffer := []
    language_code := language
    profile := profile
    initial_prompt := ip
    committed_segments := []
    partial_text := ""
    last_committed_end_time := 0
    last_audio_time := now
    TRANSCRIBE_INTERVAL := 4/5
    last_transcribe_time := 0
    chunk_count := 0
    total_inference_time := 0
    total_commits := 0 }

/-- Model of `StreamingTranscriber.add_chunk`.  Python's slice `buffer[-k:]` keeps the
last `k` elements when `k > 0` but the whole list when `k = 0`, so the
`window_samples = 0` case is modelled separately. -/
def add_chunk (s : TranscriberState) (chunk : List ℚ) (now : ℚ) : TranscriberState :=
  let buffer := s.buffer ++ chunk
  let buffer :=
    if buffer.length > s.window_samples then
      if s.window_samples = 0 then buffer
      else buffer.drop (buffer.length - s.window_samples)
    else buffer
  { s with buffer := buffer, last_audio_time := now }

/-- Model of `StreamingTranscriber.ready`. -/
def ready (s : TranscriberState) (now : ℚ) : Bool :=
  if s.buffer.length < (Int.floor ((s.sample_rate : ℚ) * 1)).toNat then false
  else if now - s.last_transcribe_time < s.TRANSCRIBE_INTERVAL then false
  else true

/-- Prompt construction, lines 104-113 of `transcriber_stream.py`:
last committed text (if any), then the session prompt (if truthy),
joined by a space; `None` when both are absent. -/
def effective_prompt (s : TranscriberState) : Option String :=
  let prompt_parts : List String :=
    (match s.committed_segments.getLast? with
     | some seg => [seg.text]
     | none => []) ++
    (match s.initial_prompt with
     | some p => if p = "" then [] else [p]
     | none => [])
  if prompt_parts = [] then none else some (joinSpace prompt_parts)

/-- The argument bundle `transcribe` hands to the engine (lines 116-127).
`condition_on_previous_text` is the literal `False` of line 121, not the
profile field. -/
def engineArgs (s : TranscriberState) : EngineArgs :=
  { audio := s.buffer
    language := if s.language_code = "" then none else some s.language_code
    initial_prompt := effective_prompt s
    condition_on_previous_text := false
    beam_size := s.profile.beam_size
    best_of := s.profile.best_of
    vad_filter := s.profile.vad_filter
    temperature := s.profile.temperature
    no_speech_threshold := 2/5 }

/-- The duplicate test of lines 181-184: does the stripped segment text equal
the text of the most recently committed segment? -/
def isDupOfLast (committed : List CommittedSegment) (seg : Seg) : Bool :=
  match committed.getLast? with
  | some lastSeg => lastSeg.text == pyStrip seg.text
  | none => false

/-- The `for i, seg in enumerate(segment_list)` loop of lines 176-203:
all segments except the last are committed (with the duplicate test against
the evolving committed list); the last segment's stripped text becomes the
new partial text.  Returns (committed list, total_commits, partial_text). -/
def commitLoop : List Seg → List CommittedSegment → Nat →
    List CommittedSegment × Nat × String
  | [], committed, tc => (committed, tc, "")
  | [seg], committed, tc => (committed, tc, pyStrip seg.text)
  | seg :: seg2 :: rest, committed, tc =>
    if isDupOfLast committed seg then
      commitLoop (seg2 :: rest) committed tc
    else
      commitLoop (seg2 :: rest)
        (committed ++ [{ text := pyStrip seg.text
                         start := pyRound2 seg.start
                         stop := pyRound2 seg.stop
                         finalized := true }])
        (tc + 1)

/-- Model of `StreamingTranscriber.transcribe`.  Returns the state of the object after
the call together with the returned dict, or the propagated engine exception.
Mutations made before a raised exception (only `last_transcribe_time`) are
kept, as in Python. -/
def transcribe (s : TranscriberState) (now : ℚ) (inference_time : ℚ)
    (engine : EngineArgs → Except EngineError (List Seg)) :
    TranscriberState × Except EngineError TranscribeResult :=
  if ready s now = false then
    (s, .ok { committed := s.committed_segments, partial_text := s.partial_text })
  else
    let s1 := { s with last_transcribe_time := now }
    match engine (engineArgs s1) with
    | .error e => (s1, .error e)
    | .ok segment_list =>
      let res := commitLoop segment_list s1.committed_segments s1.total_commits
      let s2 := { s1 with
        committed_segments := res.1
        partial_text := res.2.2
        total_commits := res.2.1
        chunk_count := s1.chunk_count + 1
        total_inference_time := s1.total_inference_time + inference_time }
      (s2, .ok { committed := s2.committed_segments, partial_text := s2.partial_text })

/-- Model of `StreamingTranscriber.get_metrics_summary` (pure read). -/
def get_metrics_summary (s : TranscriberState) : MetricsSummary :=
  { total_chunks := s.chunk_count
    avg_inference_time :=
      if s.chunk_count > 0 then s.total_inference_time / (s.chunk_count : ℚ) else 0
    total_commits := s.total_commits }

/-- One observable operation on a live session, for stating session-trace
invariants. `metrics` is the pure read `get_metrics_summary`. -/
inductive Op where
  | add (chunk : List ℚ) (now : ℚ)
  | run (now inference_time : ℚ) (engine : EngineArgs → Except EngineError (List Seg))
  | metrics

/-- State after one operation (for a failed engine call the session object
keeps the mutations made before the exception, as in Python). -/
def applyOp (s : TranscriberState) : Op → TranscriberState
  | .add chunk now => add_chunk s chunk now
  | .run now inference_time engine => (transcribe s now inference_time engine).1
  | .metrics => s

/-- State after a sequence of operations. -/
def applyOps (s : TranscriberState) (ops : List Op) : TranscriberState :=
  ops.foldl applyOp s

/-- Specification-side consecutive deduplication: drop each text equal to the
text committed immediately before it, threading the last committed text. -/
def dedupTexts : Option String → List String → List String
  | _, [] => []
  | prev, t :: ts =>
    if prev = some t then dedupTexts prev ts else t :: dedupTexts (some t) ts

/-- The `int(sample_rate * 1.0)` threshold of `ready` is `sample_rate` itself. -/
theorem floor_mul_one (n : Nat) : (Int.floor ((n : ℚ) * 1)).toNat = n := by
  simp

/-- The duplicate test succeeds exactly when the most recently committed text
equals the stripped segment text. -/
theorem isDupOfLast_iff (committed : List CommittedSegment) (seg : Seg) :
    isDupOfLast committed seg = true ↔
      committed.getLast?.map CommittedSegment.text = some (pyStrip seg.text) := by
  unfold isDupOfLast
  cases committed.getLast? with
  | none => simp
  | some lastSeg => simp

/-- The commit loop only appends to the committed list. -/
theorem commitLoop_extends (segs : List Seg) :
    ∀ committed tc, ∃ t, (commitLoop segs committed tc).1 = committed ++ t := by
  induction segs with
  | nil => intro committed tc; exact ⟨[], by simp [commitLoop]⟩
  | cons seg rest ih =>
    intro committed tc
    cases rest with
    | nil => exact ⟨[], by simp [commitLoop]⟩
    | cons seg2 rest2 =>
      rw [commitLoop]
      by_cases h : isDupOfLast committed seg = true
      · rw [if_pos h]
        exact ih committed tc
      · rw [if_neg h]
        obtain ⟨t, ht⟩ := ih
          (committed ++ [{ text := pyStrip seg.text, start := pyRound2 seg.start,
                           stop := pyRound2 seg.stop, finalized := true }]) (tc + 1)
        refine ⟨{ text := pyStrip seg.text, start := pyRound2 seg.start,
                  stop := pyRound2 seg.stop, finalized := true } :: t, ?_⟩
        rw [ht, List.append_assoc]
        rfl

/-- Texts committed by the loop: all but the last segment, stripped, with
consecutive deduplication threaded from the last already-committed text. -/
theorem commitLoop_texts (segs : List Seg) :
    ∀ committed tc,
      ((commitLoop segs committed tc).1).map CommittedSegment.text =
        committed.map CommittedSegment.text ++
          dedupTexts (committed.getLast?.map CommittedSegment.text)
            ((segs.dropLast).map fun g => pyStrip g.text) := by
  induction segs with
  | nil => intro committed tc; simp [commitLoop, dedupTexts]
  | cons seg rest ih =>
    intro committed tc
    cases rest with
    | nil => simp [commitLoop, dedupTexts]
    | cons seg2 rest2 =>
      rw [commitLoop]
      by_cases h : isDupOfLast committed seg = true
      · rw [if_pos h]
        have hprev := (isDupOfLast_iff committed seg).mp h
        rw [ih committed tc, List.dropLast_cons₂, List.map_cons]
        rw [dedupTexts, if_pos hprev]
      · rw [if_neg h]
        have hprev : ¬ committed.getLast?.map CommittedSegment.text
            = some (pyStrip seg.text) := fun hc => h ((isDupOfLast_iff committed seg).mpr hc)
        rw [ih _ (tc + 1), List.dropLast_cons₂, List.map_cons]
        rw [dedupTexts, if_neg hprev]
        rw [List.getLast?_concat]
        simp

/-- The partial text produced by the loop is the stripped text of the final
segment. -/
theorem commitLoop_partial (segs : List Seg) :
    ∀ committed tc lastSeg, segs.getLast? = some lastSeg →
      (commitLoop segs committed tc).2.2 = pyStrip lastSeg.text := by
  induction segs with
  | nil => intro _ _ _ h; simp at h
  | cons seg rest ih =>
    intro committed tc lastSeg h
    cases rest with
    | nil =>
      simp only [List.getLast?_singleton, Option.some.injEq] at h
      subst h
      simp [commitLoop]
    | cons seg2 rest2 =>
      rw [List.getLast?_cons_cons] at h
      rw [commitLoop]
      by_cases hd : isDupOfLast committed seg = true
      · rw [if_pos hd]; exact ih _ _ _ h
      · rw [if_neg hd]; exact ih _ _ _ h

/-- Unfolding `transcribe` when the gate refuses. -/
theorem transcribe_not_ready (s : TranscriberState) (now it : ℚ)
    (engine : EngineArgs → Except EngineError (List Seg))
    (h : ready s now = false) :
    transcribe s now it engine =
      (s, .ok { committed := s.committed_segments, partial_text := s.partial_text }) := by
  unfold transcribe
  rw [h]
  rfl

/-- Unfolding `transcribe` when the engine raises. -/
theorem transcribe_error (s : TranscriberState) (now it : ℚ)
    (engine : EngineArgs → Except EngineError (List Seg)) (err : EngineError)
    (hr : ready s now = true)
    (he : engine (engineArgs { s with last_transcribe_time := now }) = .error err) :
    transcribe s now it engine = ({ s with last_transcribe_time := now }, .error err) := by
  unfold transcribe
  simp only [hr, he, Bool.true_eq_false, if_false]

/-- Unfolding `transcribe` when the engine returns a segment list. -/
theorem transcribe_ok (s : TranscriberState) (now it : ℚ)
    (engine : EngineArgs → Except EngineError (List Seg)) (segs : List Seg)
    (hr : ready s now = true)
    (he : engine (engineArgs { s with last_transcribe_time := now }) = .ok segs) :
    transcribe s now it engine =
      ({ s with last_transcribe_time := now
                committed_segments := (commitLoop segs s.committed_segments s.total_commits).1
                partial_text := (commitLoop segs s.committed_segments s.total_commits).2.2
                total_commits := (commitLoop segs s.committed_segments s.total_commits).2.1
                chunk_count := s.chunk_count + 1
                total_inference_time := s.total_inference_time + it },
       .ok { committed := (commitLoop segs s.committed_segments s.total_commits).1
             partial_text := (commitLoop segs s.committed_segments s.total_commits).2.2 }) := by
  unfold transcribe
  simp only [hr, he, Bool.true_eq_false, if_false]

/-- Claim C4 (counterexample to the unrestricted form): a session whose
configured window holds zero samples (`window_seconds = 0`) violates the
capacity bound after a single `add_chunk`, because Python's trimming slice
`buffer[-0:]` keeps the entire buffer. -/
theorem C4_counterexample :
    (init 1 0 "en" none 0).window_samples = 0 ∧
    ¬ ((add_chunk (init 1 0 "en" none 0) [0] 0).buffer.length ≤
        (init 1 0 "en" none 0).window_samples) := by decide

/-- Claim C4 (amended): for a session whose window capacity is at least one
sample, after every `add_chunk` call the buffer length is at most
`window_samples`, and on overflow the kept buffer is a suffix of the
appended data of length exactly `window_samples` (the oldest excess is
dropped, no error is possible). -/
theorem C4_buffer_capacity (s : TranscriberState) (chunk : List ℚ) (now : ℚ)
    (hws : 0 < s.window_samples) :
    (add_chunk s chunk now).buffer.length ≤ s.window_samples ∧
    ((s.buffer ++ chunk).length > s.window_samples →
      ∃ dropped, dropped ++ (add_chunk s chunk now).buffer = s.buffer ++ chunk ∧
        (add_chunk s chunk now).buffer.length = s.window_samples) := by
  simp only [add_chunk]
  by_cases h : (s.buffer ++ chunk).length > s.window_samples
  · have hne : ¬ s.window_samples = 0 := by omega
    rw [if_pos h, if_neg hne]
    constructor
    · simp only [List.length_drop]
      omega
    · intro _
      refine ⟨(s.buffer ++ chunk).take ((s.buffer ++ chunk).length - s.window_samples),
        List.take_append_drop _ _, ?_⟩
      simp only [List.length_drop]
      omega
  · rw [if_neg h]
    exact ⟨by simpa using Nat.le_of_not_lt h, fun hc => absurd hc h⟩

/-- Claim C4 witness. -/
theorem C4_witness :
    0 < (init 1 6 "en" none 0).window_samples ∧
    (add_chunk (init 1 6 "en" none 0) [0, 0, 0, 0, 0, 0, 0] 0).buffer.length ≤
      (init 1 6 "en" none 0).window_samples :=
  ⟨by decide,
   (C4_buffer_capacity (init 1 6 "en" none 0) [0, 0, 0, 0, 0, 0, 0] 0 (by decide)).1⟩

/-- Claim C5: the invocation gate opens exactly when the buffer holds at
least `sample_rate * 1.0` samples (one second of audio) and at least
`TRANSCRIBE_INTERVAL` has elapsed since the previous invocation; the interval
a session is constructed with is 0.8 s. -/
theorem C5_ready_iff (s : TranscriberState) (now : ℚ) :
    (ready s now = true ↔
      s.sample_rate ≤ s.buffer.length ∧
      s.TRANSCRIBE_INTERVAL ≤ now - s.last_transcribe_time) ∧
    ∀ sr ws lang ip t0, (init sr ws lang ip t0).TRANSCRIBE_INTERVAL = 4/5 := by
  constructor
  · unfold ready
    rw [floor_mul_one]
    split_ifs with h1 h2
    · constructor
      · intro hc; cases hc
      · intro hc; exact absurd hc.1 (by omega)
    · constructor
      · intro hc; cases hc
      · intro hc; exact absurd hc.2 (not_le.mpr h2)
    · constructor
      · intro _; exact ⟨by omega, not_lt.mp h2⟩
      · intro _; rfl
  · intro sr ws lang ip t0; rfl

/-- Claim C5 witness. -/
theorem C5_witness :
    ready (add_chunk (init 1 6 "en" none 0) [0] 0) 1 = true :=
  (C5_ready_iff (add_chunk (init 1 6 "en" none 0) [0] 0) 1).1.mpr
    ⟨by decide, by decide⟩

/-- Claim C6: whenever the gate refuses, `transcribe` returns the current
committed/partial snapshot with the state untouched, and any two such calls
return the identical pair (regardless of engine or timing arguments). -/
theorem C6_not_ready_idempotent (s : TranscriberState) (now now' it it' : ℚ)
    (e e' : EngineArgs → Except EngineError (List Seg))
    (h : ready s now = false) (h' : ready s now' = false) :
    transcribe s now it e =
      (s, .ok { committed := s.committed_segments, partial_text := s.partial_text }) ∧
    (transcribe s now' it' e').2 = (transcribe s now it e).2 := by
  refine ⟨transcribe_not_ready s now it e h, ?_⟩
  rw [transcribe_not_ready s now it e h, transcribe_not_ready s now' it' e' h']

/-- Claim C6 witness (two gate-refused calls with different engines and
times return the identical snapshot and leave the fresh state unchanged). -/
theorem C6_witness :
    transcribe (init 1 6 "en" none 0) 0 0 (fun _ => .ok []) =
      (init 1 6 "en" none 0,
       .ok { committed := (init 1 6 "en" none 0).committed_segments,
             partial_text := (init 1 6 "en" none 0).partial_text }) ∧
    (transcribe (init 1 6 "en" none 0) (1/2) 7 (fun _ => .error "boom")).2 =
      (transcribe (init 1 6 "en" none 0) 0 0 (fun _ => .ok [])).2 :=
  C6_not_ready_idempotent (init 1 6 "en" none 0) 0 (1/2) 0 7
    (fun _ => .ok []) (fun _ => .error "boom") (by decide) (by decide)

/-- Claim C7: when the engine call raises, the exception propagates, the
whole failure state is the prior state with only the throttle timestamp
advanced, and in particular the committed list, the partial text and the
buffer are unchanged, leaving the session usable. -/
theorem C7_engine_failure_keeps_state (s : TranscriberState) (now it : ℚ)
    (engine : EngineArgs → Except EngineError (List Seg)) (err : EngineError)
    (hr : ready s now = true)
    (he : engine (engineArgs { s with last_transcribe_time := now }) = .error err) :
    transcribe s now it engine = ({ s with last_transcribe_time := now }, .error err) ∧
    (transcribe s now it engine).1.committed_segments = s.committed_segments ∧
    (transcribe s now it engine).1.partial_text = s.partial_text ∧
    (transcribe s now it engine).1.buffer = s.buffer := by
  have h1 := transcribe_error s now it engine err hr he
  exact ⟨h1, by rw [h1], by rw [h1], by rw [h1]⟩

/-- Claim C7 witness: a concrete engine failure on a live session. -/
theorem C7_witness :
    (transcribe (add_chunk (init 1 6 "en" none 0) [0] 0) 1 0
        (fun _ => .error "bad audio")).1.committed_segments =
      (add_chunk (init 1 6 "en" none 0) [0] 0).committed_segments ∧
    (transcribe (add_chunk (init 1 6 "en" none 0) [0] 0) 1 0
        (fun _ => .error "bad audio")).1.partial_text =
      (add_chunk (init 1 6 "en" none 0) [0] 0).partial_text :=
  ⟨(C7_engine_failure_keeps_state (add_chunk (init 1 6 "en" none 0) [0] 0) 1 0
      (fun _ => .error "bad audio") "bad audio" (by decide) rfl).2.1,
   (C7_engine_failure_keeps_state (add_chunk (init 1 6 "en" none 0) [0] 0) 1 0
      (fun _ => .error "bad audio") "bad audio" (by decide) rfl).2.2.1⟩

/-- Claim C9: profile resolution is the total deterministic lookup
`ur ↦ URDU_PROFILE`, `roman-ur ↦ ROMAN_URDU_PROFILE`, `en ↦
STREAMING_PROFILE`, and every other code (the empty string included) falls
back to `ACCURACY_PROFILE`. -/
theorem C9_profile_resolution :
    get_profile_for_language "ur" = URDU_PROFILE ∧
    get_profile_for_language "roman-ur" = ROMAN_URDU_PROFILE ∧
    get_profile_for_language "en" = STREAMING_PROFILE ∧
    get_profile_for_language "" = ACCURACY_PROFILE ∧
    ∀ lang, lang ≠ "ur" → lang ≠ "roman-ur" → lang ≠ "en" →
      get_profile_for_language lang = ACCURACY_PROFILE := by
  refine ⟨by decide, by decide, by decide, by decide, ?_⟩
  intro lang h1 h2 h3
  unfold get_profile_for_language
  rw [if_neg h1, if_neg h2, if_neg h3]

/-- Claim C9 witness: an unrecognized code resolves to the accuracy
profile. -/
theorem C9_witness : get_profile_for_language "xx" = ACCURACY_PROFILE :=
  C9_profile_resolution.2.2.2.2 "xx" (by decide) (by decide) (by decide)

/-- Claim C10: when the gate admits the call and the engine returns an empty
segment list, nothing is committed and the partial text is reset to the
empty string (a previously held partial is discarded). -/
theorem C10_empty_segments_reset (s : TranscriberState) (now it : ℚ)
    (engine : EngineArgs → Except EngineError (List Seg))
    (hr : ready s now = true)
    (he : engine (engineArgs { s with last_transcribe_time := now }) = .ok []) :
    (transcribe s now it engine).1.committed_segments = s.committed_segments ∧
    (transcribe s now it engine).1.partial_text = "" ∧
    (transcribe s now it engine).1.total_commits = s.total_commits ∧
    (transcribe s now it engine).2 =
      .ok { committed := s.committed_segments, partial_text := "" } := by
  have h1 := transcribe_ok s now it engine [] hr he
  refine ⟨by rw [h1]; rfl, by rw [h1]; rfl, by rw [h1]; rfl, by rw [h1]; rfl⟩

/-- Claim C10 witness: a session holding the partial text "prev" receives an
empty engine result and ends with empty partial text and nothing committed. -/
theorem C10_witness :
    (transcribe (add_chunk (init 1 6 "en" none 0) [0] 0) 1 0
        (fun _ => .ok [{ text := " prev", start := 0, stop := 1 }])).1.partial_text
      = "prev" ∧
    ((transcribe ((transcribe (add_chunk (init 1 6 "en" none 0) [0] 0) 1 0
        (fun _ => .ok [{ text := " prev", start := 0, stop := 1 }])).1) 2 0
        (fun _ => .ok [])).1.partial_text = "" ∧
     (transcribe ((transcribe (add_chunk (init 1 6 "en" none 0) [0] 0) 1 0
        (fun _ => .ok [{ text := " prev", start := 0, stop := 1 }])).1) 2 0
        (fun _ => .ok [])).1.committed_segments =
      ((transcribe (add_chunk (init 1 6 "en" none 0) [0] 0) 1 0
        (fun _ => .ok [{ text := " prev", start := 0, stop := 1 }])).1).committed_segments) :=
  ⟨by decide,
   (C10_empty_segments_reset
      ((transcribe (add_chunk (init 1 6 "en" none 0) [0] 0) 1 0
        (fun _ => .ok [{ text := " prev", start := 0, stop := 1 }])).1) 2 0
      (fun _ => .ok []) (by decide) rfl).2.1,
   (C10_empty_segments_reset
      ((transcribe (add_chunk (init 1 6 "en" none 0) [0] 0) 1 0
        (fun _ => .ok [{ text := " prev", start := 0, stop := 1 }])).1) 2 0
      (fun _ => .ok []) (by decide) rfl).1⟩

/-- Claim C1: on a gate-admitted call whose engine result is a non-empty
segment list, the committed list is extended (in order, individually) by
exactly the stripped texts of all segments but the last, with consecutive
deduplication threaded from the previously last committed text; the stripped
text of the final segment fully replaces the partial text (whatever it was
before), and the rolling buffer is not cleared. -/
theorem C1_positional_commit (s : TranscriberState) (now it : ℚ)
    (engine : EngineArgs → Except EngineError (List Seg))
    (segs : List Seg) (lastSeg : Seg)
    (hr : ready s now = true)
    (he : engine (engineArgs { s with last_transcribe_time := now }) = .ok segs)
    (hl : segs.getLast? = some lastSeg) :
    ((transcribe s now it engine).1.committed_segments).map CommittedSegment.text =
      (s.committed_segments).map CommittedSegment.text ++
        dedupTexts ((s.committed_segments).getLast?.map CommittedSegment.text)
          ((segs.dropLast).map fun g => pyStrip g.text) ∧
    (transcribe s now it engine).1.partial_text = pyStrip lastSeg.text ∧
    (transcribe s now it engine).1.buffer = s.buffer := by
  have h1 := transcribe_ok s now it engine segs hr he
  refine ⟨?_, ?_, ?_⟩
  · rw [h1]
    exact commitLoop_texts segs s.committed_segments s.total_commits
  · rw [h1]
    exact commitLoop_partial segs s.committed_segments s.total_commits lastSeg hl
  · rw [h1]

/-- Claim C1 witness: three segments " a", "a ", " b"; the first commits,
the second is skipped as a duplicate of the first, the third becomes the
partial text; the buffer stays as it was. -/
theorem C1_witness :
    ((transcribe (add_chunk (init 1 6 "en" none 0) [0] 0) 1 0
        (fun _ => .ok [{ text := " a", start := 0, stop := 1 },
                       { text := "a ", start := 1, stop := 2 },
                       { text := " b", start := 2, stop := 3 }])).1.committed_segments).map
        CommittedSegment.text =
      ((add_chunk (init 1 6 "en" none 0) [0] 0).committed_segments).map
          CommittedSegment.text ++
        dedupTexts (((add_chunk (init 1 6 "en" none 0) [0] 0).committed_segments).getLast?.map
            CommittedSegment.text)
          (([{ text := " a", start := 0, stop := 1 },
             { text := "a ", start := 1, stop := 2 },
             { text := " b", start := 2, stop := 3 }] : List Seg).dropLast.map
            fun g => pyStrip g.text) ∧
    (transcribe (add_chunk (init 1 6 "en" none 0) [0] 0) 1 0
        (fun _ => .ok [{ text := " a", start := 0, stop := 1 },
                       { text := "a ", start := 1, stop := 2 },
                       { text := " b", start := 2, stop := 3 }])).1.partial_text =
      pyStrip (" b" : String) ∧
    (transcribe (add_chunk (init 1 6 "en" none 0) [0] 0) 1 0
        (fun _ => .ok [{ text := " a", start := 0, stop := 1 },
                       { text := "a ", start := 1, stop := 2 },
                       { text := " b", start := 2, stop := 3 }])).1.buffer =
      (add_chunk (init 1 6 "en" none 0) [0] 0).buffer :=
  C1_positional_commit (add_chunk (init 1 6 "en" none 0) [0] 0) 1 0
    (fun _ => .ok [{ text := " a", start := 0, stop := 1 },
                   { text := "a ", start := 1, stop := 2 },
                   { text := " b", start := 2, stop := 3 }])
    [{ text := " a", start := 0, stop := 1 },
     { text := "a ", start := 1, stop := 2 },
     { text := " b", start := 2, stop := 3 }]
    { text := " b", start := 2, stop := 3 }
    (by decide) rfl (by decide)

/-- Each single operation only appends to the committed list. -/
theorem applyOp_extends (s : TranscriberState) (op : Op) :
    ∃ t, (applyOp s op).committed_segments = s.committed_segments ++ t := by
  cases op with
  | add chunk now => exact ⟨[], by simp [applyOp, add_chunk]⟩
  | metrics => exact ⟨[], by simp [applyOp]⟩
  | run now it engine =>
    show ∃ t, (transcribe s now it engine).1.committed_segments = s.committed_segments ++ t
    by_cases hr : ready s now = false
    · exact ⟨[], by rw [transcribe_not_ready s now it engine hr]; simp⟩
    · cases he : engine (engineArgs { s with last_transcribe_time := now }) with
      | error err =>
        refine ⟨[], ?_⟩
        rw [transcribe_error s now it engine err (by simpa using hr) he]
        simp
      | ok segs =>
        obtain ⟨t, ht⟩ := commitLoop_extends segs s.committed_segments s.total_commits
        refine ⟨t, ?_⟩
        rw [transcribe_ok s now it engine segs (by simpa using hr) he]
        exact ht

/-- Claim C2: the committed list is append-only across any two observation
points of a session trace made of `add_chunk`, `transcribe` and
`get_metrics_summary` operations: the list observed after `ops1` is a prefix
of the list observed after `ops1 ++ ops2`, so no committed segment is ever
mutated or removed. -/
theorem C2_committed_append_only (s : TranscriberState) (ops1 ops2 : List Op) :
    ∃ t, (applyOps s ops1).committed_segments ++ t =
      (applyOps s (ops1 ++ ops2)).committed_segments := by
  unfold applyOps
  rw [List.foldl_append]
  generalize List.foldl applyOp s ops1 = s'
  induction ops2 generalizing s' with
  | nil => exact ⟨[], by simp⟩
  | cons op rest ih =>
    obtain ⟨t1, ht1⟩ := applyOp_extends s' op
    obtain ⟨t2, ht2⟩ := ih (applyOp s' op)
    refine ⟨t1 ++ t2, ?_⟩
    simp only [List.foldl_cons]
    rw [← ht2, ht1, List.append_assoc]

/-- Claim C3 counterexample: a session whose hypothesis "testing" is
non-empty and whose last audio activity lies 99 seconds in the past (far
beyond any silence timeout) still commits nothing on the next `transcribe`
call: the hypothesis merely remains the partial text. -/
theorem C3_counterexample :
    (transcribe (add_chunk (init 1 6 "en" none 0) [0] 0) 1 0
        (fun _ => .ok [{ text := " testing", start := 0, stop := 1 }])).1.partial_text
      = "testing" ∧
    (100 : ℚ) - (transcribe (add_chunk (init 1 6 "en" none 0) [0] 0) 1 0
        (fun _ => .ok [{ text := " testing", start := 0, stop := 1 }])).1.last_audio_time
      > 6/5 ∧
    ready ((transcribe (add_chunk (init 1 6 "en" none 0) [0] 0) 1 0
        (fun _ => .ok [{ text := " testing", start := 0, stop := 1 }])).1) 100 = true ∧
    (transcribe ((transcribe (add_chunk (init 1 6 "en" none 0) [0] 0) 1 0
        (fun _ => .ok [{ text := " testing", start := 0, stop := 1 }])).1) 100 0
        (fun _ => .ok [{ text := " testing", start := 0, stop := 1 }])).1.committed_segments
      = [] ∧
    (transcribe ((transcribe (add_chunk (init 1 6 "en" none 0) [0] 0) 1 0
        (fun _ => .ok [{ text := " testing", start := 0, stop := 1 }])).1) 100 0
        (fun _ => .ok [{ text := " testing", start := 0, stop := 1 }])).1.total_commits
      = 0 ∧
    (transcribe ((transcribe (add_chunk (init 1 6 "en" none 0) [0] 0) 1 0
        (fun _ => .ok [{ text := " testing", start := 0, stop := 1 }])).1) 100 0
        (fun _ => .ok [{ text := " testing", start := 0, stop := 1 }])).1.partial_text
      = "testing" := by decide

/-- Claim C3 amended: there is no silence-forced commit: `transcribe` never
reads the silence clock `last_audio_time`, so its committed list, partial
text, commit count and returned value are unchanged under any value of that
clock; after any amount of silence the engine's final segment simply remains
the partial text. -/
theorem C3_no_silence_forced_commit (s : TranscriberState) (a now it : ℚ)
    (engine : EngineArgs → Except EngineError (List Seg)) :
    (transcribe { s with last_audio_time := a } now it engine).1.committed_segments =
      (transcribe s now it engine).1.committed_segments ∧
    (transcribe { s with last_audio_time := a } now it engine).1.partial_text =
      (transcribe s now it engine).1.partial_text ∧
    (transcribe { s with last_audio_time := a } now it engine).1.total_commits =
      (transcribe s now it engine).1.total_commits ∧
    (transcribe { s with last_audio_time := a } now it engine).2 =
      (transcribe s now it engine).2 := by
  have hready : ready { s with last_audio_time := a } now = ready s now := rfl
  have hargs : engineArgs { { s with last_audio_time := a } with last_transcribe_time := now } =
      engineArgs { s with last_transcribe_time := now } := rfl
  by_cases hr : ready s now = false
  · rw [transcribe_not_ready s now it engine hr,
       transcribe_not_ready { s with last_audio_time := a } now it engine (hready.trans hr)]
    exact ⟨rfl, rfl, rfl, rfl⟩
  · have hr' : ready s now = true := by simpa using hr
    cases he : engine (engineArgs { s with last_transcribe_time := now }) with
    | error err =>
      rw [transcribe_error s now it engine err hr' he,
         transcribe_error { s with last_audio_time := a } now it engine err
           (hready.trans hr') (hargs.symm ▸ he)]
      exact ⟨rfl, rfl, rfl, rfl⟩
    | ok segs =>
      rw [transcribe_ok s now it engine segs hr' he,
         transcribe_ok { s with last_audio_time := a } now it engine segs
           (hready.trans hr') (hargs.symm ▸ he)]
      exact ⟨rfl, rfl, rfl, rfl⟩

/-- Claim C8 counterexample: for an Urdu session the resolved profile asks
for conditioning on previous text (`condition_on_previous_text = True`), but
the argument bundle handed to the engine always carries the hard-coded
`condition_on_previous_text = False`. -/
theorem C8_counterexample :
    (engineArgs (init 16000 6 "ur" none 0)).condition_on_previous_text = false ∧
    (init 16000 6 "ur" none 0).profile.condition_on_previous_text = true := by decide

/-- Claim C8 amended: every engine invocation made by `transcribe` receives
`beam_size`, `best_of`, `temperature` and `vad_filter` from the session's
resolved profile, but `condition_on_previous_text` is the hard-coded literal
`False` regardless of the profile; and `transcribe` consults the engine only
at the argument bundle `engineArgs` of the post-throttle state. -/
theorem C8_engine_args_from_profile (s : TranscriberState) (now it : ℚ)
    (e1 e2 : EngineArgs → Except EngineError (List Seg))
    (h : e1 (engineArgs { s with last_transcribe_time := now }) =
         e2 (engineArgs { s with last_transcribe_time := now })) :
    (engineArgs s).beam_size = s.profile.beam_size ∧
    (engineArgs s).best_of = s.profile.best_of ∧
    (engineArgs s).temperature = s.profile.temperature ∧
    (engineArgs s).vad_filter = s.profile.vad_filter ∧
    (engineArgs s).condition_on_previous_text = false ∧
    transcribe s now it e1 = transcribe s now it e2 := by
  refine ⟨rfl, rfl, rfl, rfl, rfl, ?_⟩
  by_cases hr : ready s now = false
  · rw [transcribe_not_ready s now it e1 hr, transcribe_not_ready s now it e2 hr]
  · have hr' : ready s now = true := by simpa using hr
    cases he : e2 (engineArgs { s with last_transcribe_time := now }) with
    | error err =>
      rw [transcribe_error s now it e1 err hr' (h.trans he),
         transcribe_error s now it e2 err hr' he]
    | ok segs =>
      rw [transcribe_ok s now it e1 segs hr' (h.trans he),
         transcribe_ok s now it e2 segs hr' he]

/-- Claim C8 witness. -/
theorem C8_witness :
    (engineArgs (init 1 6 "ur" none 0)).beam_size =
      (init 1 6 "ur" none 0).profile.beam_size ∧
    (engineArgs (init 1 6 "ur" none 0)).best_of =
      (init 1 6 "ur" none 0).profile.best_of ∧
    (engineArgs (init 1 6 "ur" none 0)).temperature =
      (init 1 6 "ur" none 0).profile.temperature ∧
    (engineArgs (init 1 6 "ur" none 0)).vad_filter =
      (init 1 6 "ur" none 0).profile.vad_filter ∧
    (engineArgs (init 1 6 "ur" none 0)).condition_on_previous_text = false ∧
    transcribe (init 1 6 "ur" none 0) 0 0 (fun _ => .ok []) =
      transcribe (init 1 6 "ur" none 0) 0 0 (fun _ => .ok []) :=
  C8_engine_args_from_profile (init 1 6 "ur" none 0) 0 0
    (fun _ => .ok []) (fun _ => .ok []) rfl

end Neuryx
